import Mathlib

set_option maxRecDepth 8000

/-! Verification of the AI resume builder against its specification.

Shallow embedding of `src/services.py`, `src/app.py`, `src/models.py` and
`src/Ai_resume.py`: the generation service, the correction service, the
document renderer and the interactive form controller. Pure data flow is
translated directly; the external collaborators (the spelling library, the
hosted inference endpoint) are parameters of the embedded functions, so that
theorems can quantify over their behaviour. -/

namespace AIResumeBuilder

/-- A FastAPI style HTTP exception: a status code and a detail message. -/
structure HTTPException where
  status_code : Nat
  detail : String
deriving DecidableEq

/-- Python exceptions that can escape the try block of `services.generate_text`:
a fastapi `HTTPException` raised by the code itself, a
`requests.exceptions.RequestException` from the transport layer (which includes
the `HTTPError` raised by `raise_for_status`), or any other exception. -/
inductive PyExc where
  | httpExc (e : HTTPException)
  | requestExc (msg : String)
  | otherExc (msg : String)
deriving DecidableEq

/-- Python `str(e)` on the exceptions above; a starlette `HTTPException`
renders as `"{status_code}: {detail}"`. -/
def pyStr : PyExc → String
  | .httpExc e => toString e.status_code ++ ": " ++ e.detail
  | .requestExc m => m
  | .otherExc m => m

/-- Body of the inference endpoint response, as consumed by
`response.json()[0].get('generated_text', prompt)` (services.py line 65):
either a nonempty list of completions, whose first element may or may not
carry a `generated_text` field, or anything else (which makes that line raise). -/
inductive HFBody where
  | completions (generated_text : Option String)
  | malformed (msg : String)
deriving DecidableEq

/-- An HTTP response from the inference endpoint. `estimated_time` models
`response.headers.get("estimated_time")` already parsed as an integer. -/
structure HFResponse where
  status_code : Nat
  estimated_time : Option Nat
  body : HFBody
deriving DecidableEq

/-- Outcome of one `requests.post` call: a response, or a raised
`requests.exceptions.RequestException` (timeout, connection error, ...). -/
inductive UpstreamOutcome where
  | response (r : HFResponse)
  | transportError (msg : String)
deriving DecidableEq

/-- The `parameters` dict sent to the inference endpoint
(services.py lines 48-54). -/
structure RequestParams where
  max_new_tokens : Int
  temperature : Rat
  do_sample : Bool
  top_p : Rat
  return_full_text : Bool
deriving DecidableEq

/-- Python `max_length or MAX_TEXT_LENGTH` on an `Optional[int]`:
`None` and `0` are falsy and select the right operand. -/
def pyOrInt : Option Int → Int → Int
  | none, d => d
  | some n, d => if n = 0 then d else n

/-- services.py line 49: `min(max_length or MAX_TEXT_LENGTH, MAX_TEXT_LENGTH)`,
the `max_new_tokens` value sent upstream by the request service. -/
def effectiveMaxNewTokens (MAX_TEXT_LENGTH : Int) (max_length : Option Int) : Int :=
  min (pyOrInt max_length MAX_TEXT_LENGTH) MAX_TEXT_LENGTH

/-- Ai_resume.py line 93: `min(max_length, MAX_TEXT_LENGTH)` where the
interactive `generate_text` takes `max_length` with default 200. -/
def uiMaxNewTokens (MAX_TEXT_LENGTH max_length : Int) : Int :=
  min max_length MAX_TEXT_LENGTH

/-- Message of the TypeError Python raises for `float(None)`, which is what
`float(os.getenv('DEFAULT_TEMPERATURE'))` does when the variable is unset. -/
def floatNoneMsg : String :=
  "float() argument must be a string or a real number, not NoneType"

/-- The value of `float(os.getenv('DEFAULT_TEMPERATURE'))`: the configured
default temperature when set, otherwise the raised TypeError. -/
def defaultOrRaise : Option Rat → Except String Rat
  | some d => .ok d
  | none => .error floatNoneMsg

/-- services.py line 50: `temperature or float(os.getenv('DEFAULT_TEMPERATURE'))`.
`None` and `0.0` are falsy, so both fall back to the configured default, whose
read raises when the variable is unset. -/
def effTemperature (DEFAULT_TEMPERATURE : Option Rat) :
    Option Rat → Except String Rat
  | some t => if t = 0 then defaultOrRaise DEFAULT_TEMPERATURE else .ok t
  | none => defaultOrRaise DEFAULT_TEMPERATURE

/-- The parameters dict built for `requests.post` (services.py lines 46-56), or
the message of the exception raised while building it. -/
def requestParams (MAX_TEXT_LENGTH : Int) (DEFAULT_TEMPERATURE : Option Rat)
    (max_length : Option Int) (temperature : Option Rat) :
    Except String RequestParams :=
  match effTemperature DEFAULT_TEMPERATURE temperature with
  | .error m => .error m
  | .ok t =>
      .ok { max_new_tokens := effectiveMaxNewTokens MAX_TEXT_LENGTH max_length,
            temperature := t, do_sample := true, top_p := 9/10,
            return_full_text := false }

/-- Message of the `requests.exceptions.HTTPError` that `raise_for_status`
raises for a non-success status code (abstracting the exact url text). -/
def raiseForStatusMsg (code : Nat) : String :=
  toString code ++ " Error for url"

/-- The try block of `services.generate_text` (lines 39-65). The outcome of the
single `requests.post` call is supplied by `upstream`; the request parameters
are built before the call, and the credential is checked first. A missing or
empty `HF_API_KEY` is falsy and raises a ValueError inside the try block. -/
def generate_textTry (HF_API_KEY : Option String) (MAX_TEXT_LENGTH : Int)
    (DEFAULT_TEMPERATURE : Option Rat) (prompt : String) (max_length : Option Int)
    (temperature : Option Rat) (upstream : RequestParams → UpstreamOutcome) :
    Except PyExc String :=
  if HF_API_KEY = none ∨ HF_API_KEY = some "" then
    .error (.otherExc "Hugging Face API key not configured")
  else
    match requestParams MAX_TEXT_LENGTH DEFAULT_TEMPERATURE max_length temperature with
    | .error m => .error (.otherExc m)
    | .ok p =>
        match upstream p with
        | .transportError m => .error (.requestExc m)
        | .response r =>
            if r.status_code = 503 then
              .error (.httpExc ⟨503, "Model loading, please wait " ++
                toString (r.estimated_time.getD 30) ++ " seconds"⟩)
            else if 400 ≤ r.status_code then
              .error (.requestExc (raiseForStatusMsg r.status_code))
            else
              match r.body with
              | .malformed m => .error (.otherExc m)
              | .completions g => .ok (g.getD prompt)

/-- The except clauses of `services.generate_text` (lines 67-70): a
`RequestException` maps to 502; any other exception, including the
`HTTPException(503)` the try block itself raises, is caught by the blanket
`except Exception` and re-raised as 500 with the exception rendered by `str`. -/
def handleGenExc : Except PyExc String → Except HTTPException String
  | .ok v => .ok v
  | .error (.requestExc m) => .error ⟨502, "API request failed: " ++ m⟩
  | .error e => .error ⟨500, pyStr e⟩

/-- services.py `generate_text` (lines 37-70): the try block wrapped by its
exception handlers. -/
def generate_text (HF_API_KEY : Option String) (MAX_TEXT_LENGTH : Int)
    (DEFAULT_TEMPERATURE : Option Rat) (prompt : String) (max_length : Option Int)
    (temperature : Option Rat) (upstream : RequestParams → UpstreamOutcome) :
    Except HTTPException String :=
  handleGenExc (generate_textTry HF_API_KEY MAX_TEXT_LENGTH DEFAULT_TEMPERATURE
    prompt max_length temperature upstream)

/-- `generate_text` fed with the sequence of outcomes the network would return
to successive calls; the code performs exactly one `requests.post`, so only the
first outcome is ever consumed. -/
def generate_textCalls (HF_API_KEY : Option String) (MAX_TEXT_LENGTH : Int)
    (DEFAULT_TEMPERATURE : Option Rat) (prompt : String) (max_length : Option Int)
    (temperature : Option Rat) (outcomes : List UpstreamOutcome) :
    Except HTTPException String :=
  generate_text HF_API_KEY MAX_TEXT_LENGTH DEFAULT_TEMPERATURE prompt max_length
    temperature (fun _ => outcomes.headD (.transportError "Connection error"))

/-- One `os.getenv` read with its declared default. -/
structure ConfigRead where
  key : String
  default : Option String
deriving DecidableEq

/-- Every `os.getenv` read performed by src/services.py, with its default:
lines 14-17 (module level), line 50 (DEFAULT_TEMPERATURE inside
`generate_text`) and lines 78-87 (inside `create_pdf`). -/
def servicesConfigReads : List ConfigRead :=
  [⟨"HF_API_KEY", none⟩,
   ⟨"MODEL_NAME", none⟩,
   ⟨"API_TIMEOUT", some "30"⟩,
   ⟨"MAX_TEXT_LENGTH", some "500"⟩,
   ⟨"DEFAULT_TEMPERATURE", none⟩,
   ⟨"PDF_FONT", some "Arial"⟩,
   ⟨"PDF_FONT_SIZE", some "12"⟩,
   ⟨"PDF_TITLE_SIZE", some "24"⟩]

/-- Spec wording for claim C1: the minimum of the caller-requested value, or
the service default when none is requested, and the configured ceiling. In the
request service the service default is the ceiling itself. -/
def specEffectiveMaxLength (ceiling serviceDefault : Int) (requested : Option Int) : Int :=
  min (requested.getD serviceDefault) ceiling

/-- The external spelling-correction capability that `check_spelling` delegates
to: TextBlob correction and the TextBlob word tokenizer. -/
structure SpellCapability where
  correct : String → String
  words : String → List String

/-- Python default whitespace characters for `str.strip`. -/
def isPyWhitespace (c : Char) : Bool :=
  c == ' ' || c == '\t' || c == '\n' || c == '\r' || c == '\x0B' || c == '\x0C'

/-- Python `not text.strip()`: true exactly when the text is empty or consists
only of whitespace characters. -/
def stripIsEmpty (text : String) : Bool :=
  text.data.all isPyWhitespace

/-- services.py lines 30-33 (and Ai_resume.py lines 72-75): the list
comprehension comparing the original tokenization against the corrected one,
keeping the original token at every position that exists in both tokenizations
where the two tokens differ. -/
def misspelledWords (origWords corrWords : List String) : List String :=
  (origWords.enum.filter fun p =>
      decide (p.1 < corrWords.length) && (p.2 != corrWords.getD p.1 "")).map Prod.snd

/-- services.py `check_spelling` (lines 22-35) with the external TextBlob
capability passed as a parameter. The error branch (line 34) is not reachable
here because the embedded capability is a total function. -/
def check_spelling (cap : SpellCapability) (text : String) : String × List String :=
  if stripIsEmpty text then (text, [])
  else
    let corrected := cap.correct text
    (corrected, misspelledWords (cap.words text) (cap.words corrected))

/-- Spec wording for claim C5: walk the two tokenizations position by
position; wherever both have a token and the tokens differ, report the
original token; positions beyond the shorter tokenization are ignored. -/
def specMisspelled : List String → List String → List String
  | o :: os, c :: cs => (if o ≠ c then [o] else []) ++ specMisspelled os cs
  | _, _ => []

/-- A concrete spelling capability used to instantiate witnesses. -/
def capDemo : SpellCapability :=
  { correct := fun _ => "hello world",
    words := fun s => (s.splitOn " ").filter (fun w => w != "") }

/-- One operation emitted to the PDF page: a single-line cell, a wrapped
multi-line cell, or a vertical line break, each recording the font size and
bold style in force and, for cells, whether the text is centered. -/
inductive RenderOp where
  | cell (size : Nat) (bold : Bool) (center : Bool) (text : String)
  | multiCell (size : Nat) (bold : Bool) (text : String)
  | lineBreak (h : Nat)
deriving DecidableEq

/-- The FPDF object: current font family, size and bold style, plus the
operations emitted so far. -/
structure FPDF where
  family : String
  size : Nat
  bold : Bool
  ops : List RenderOp
deriving DecidableEq

/-- `pdf.set_font(family, style, size)`: an empty family keeps the current
family, size 0 keeps the current size (both stand for the omitted argument),
while the style is always applied — the empty style resets bold. -/
def FPDF.set_font (p : FPDF) (family style : String) (size : Nat) : FPDF :=
  { p with
    family := if family = "" then p.family else family,
    bold := style = "B",
    size := if size = 0 then p.size else size }

/-- `pdf.cell(0, 10, text, ln=1, align)`: emit one line of text. -/
def FPDF.cell (p : FPDF) (text : String) (center : Bool) : FPDF :=
  { p with ops := p.ops ++ [RenderOp.cell p.size p.bold center text] }

/-- `pdf.multi_cell(0, 10, text)`: emit a wrapped text block. -/
def FPDF.multi_cell (p : FPDF) (text : String) : FPDF :=
  { p with ops := p.ops ++ [RenderOp.multiCell p.size p.bold text] }

/-- `pdf.ln(h)`: emit a vertical break. -/
def FPDF.ln (p : FPDF) (h : Nat) : FPDF :=
  { p with ops := p.ops ++ [RenderOp.lineBreak h] }

/-- One education entry of the interactive session
(Ai_resume.py lines 38-44). -/
structure EducationEntry where
  degree : String
  school : String
  year : String
  achievements : String
  gpa : String
deriving DecidableEq

/-- One experience entry of the interactive session
(Ai_resume.py lines 47-55). -/
structure ExperienceEntry where
  role : String
  company : String
  years : String
  months : Nat
  description : String
  achievements : String
  location : String
deriving DecidableEq

/-- The skills sub-dict of the assembled resume data
(Ai_resume.py lines 464-467). -/
structure SkillsData where
  technical : String
  soft : String
deriving DecidableEq

/-- The additional sub-dict of the assembled resume data
(Ai_resume.py lines 468-474). -/
structure AdditionalData where
  projects : String
  certifications : String
  languages : String
  publications : String
  volunteer : String
deriving DecidableEq

/-- The resume data dict assembled by the generate-resume handler
(Ai_resume.py lines 458-475). -/
structure ResumeData where
  name : String
  contact : String
  summary : String
  education : List EducationEntry
  experience : List ExperienceEntry
  skills : SkillsData
  additional : AdditionalData
deriving DecidableEq

/-- Python `str.capitalize`: first character upper-cased, the rest lower-cased. -/
def pyCapitalize (s : String) : String :=
  match s.data with
  | [] => ""
  | c :: cs => String.mk (c.toUpper :: cs.map Char.toLower)

/-- Ai_resume.py line 152-154: the one-line text for an education entry, with
the GPA appended only when the (truthy) gpa string is nonempty. -/
def eduEntryText (e : EducationEntry) : String :=
  let t := e.degree ++ " | " ++ e.school ++ " | " ++ e.year
  if e.gpa ≠ "" then t ++ " | GPA: " ++ e.gpa else t

/-- Ai_resume.py line 156-158: the one-line text for an experience entry, with
the location appended only when nonempty. -/
def expEntryText (e : ExperienceEntry) : String :=
  let t := e.role ++ " | " ++ e.company ++ " | " ++ e.years ++ " years"
  if e.location ≠ "" then t ++ " | " ++ e.location else t

/-- Body of the section loop for one education entry (Ai_resume.py lines
150-165). An education dict has no description key, so `entry.get
('description')` is always falsy and that block never renders. -/
def renderEduEntry (p : FPDF) (e : EducationEntry) : FPDF :=
  let p := p.multi_cell (eduEntryText e)
  let p := if e.achievements ≠ ""
    then p.multi_cell ("Achievements: " ++ e.achievements) else p
  p.ln 5

/-- Body of the section loop for one experience entry (Ai_resume.py lines
150-165): the header line, then the description and achievements blocks when
nonempty, then a fixed break. -/
def renderExpEntry (p : FPDF) (e : ExperienceEntry) : FPDF :=
  let p := p.multi_cell (expEntryText e)
  let p := if e.description ≠ "" then p.multi_cell e.description else p
  let p := if e.achievements ≠ ""
    then p.multi_cell ("Achievements: " ++ e.achievements) else p
  p.ln 5

/-- Ai_resume.py `create_pdf` (lines 123-167): header, summary, then the loop
over the education and experience sections. -/
def create_pdf (PDF_FONT : String) (PDF_FONT_SIZE : Nat) (d : ResumeData) : FPDF :=
  let p : FPDF := { family := "", size := 0, bold := false, ops := [] }
  let p := p.set_font PDF_FONT "" PDF_FONT_SIZE
  let p := p.set_font "" "" 24
  let p := p.cell d.name true
  let p := p.set_font "" "" 12
  let p := p.cell d.contact true
  let p := p.ln 10
  let p := p.set_font "" "B" 0
  let p := p.cell "Professional Summary" false
  let p := p.set_font "" "" 0
  let p := p.multi_cell d.summary
  let p := p.ln 10
  let p := p.set_font "" "B" 0
  let p := p.cell (pyCapitalize "education") false
  let p := p.set_font "" "" 0
  let p := d.education.foldl renderEduEntry p
  let p := p.set_font "" "B" 0
  let p := p.cell (pyCapitalize "experience") false
  let p := p.set_font "" "" 0
  let p := d.experience.foldl renderExpEntry p
  p

/-- Concatenation of per-entry op lists, used to describe the section loops. -/
def opsConcat (f : α → List RenderOp) : List α → List RenderOp
  | [] => []
  | a :: as => f a ++ opsConcat f as

/-- The op list one education entry contributes, at the current font. -/
def eduEntryOps (size : Nat) (bold : Bool) (e : EducationEntry) : List RenderOp :=
  [RenderOp.multiCell size bold (eduEntryText e)] ++
  (if e.achievements ≠ ""
    then [RenderOp.multiCell size bold ("Achievements: " ++ e.achievements)] else []) ++
  [RenderOp.lineBreak 5]

/-- The op list one experience entry contributes, at the current font. -/
def expEntryOps (size : Nat) (bold : Bool) (e : ExperienceEntry) : List RenderOp :=
  [RenderOp.multiCell size bold (expEntryText e)] ++
  (if e.description ≠ "" then [RenderOp.multiCell size bold e.description] else []) ++
  (if e.achievements ≠ ""
    then [RenderOp.multiCell size bold ("Achievements: " ++ e.achievements)] else []) ++
  [RenderOp.lineBreak 5]

/-- The Streamlit session state driven by the interactive form
(Ai_resume.py): the personal fields, the free-text sections, the education and
experience entry lists, and the cached spelling corrections keyed by field
name (an association list modelling the `spelling_errors` dict of field to
(corrected text, misspelled words)). -/
structure SessionState where
  name : String
  email : String
  phone : String
  linkedin : String
  github : String
  portfolio : String
  address : String
  summary : String
  technical_skills : String
  soft_skills : String
  projects : String
  certifications : String
  languages : String
  publications : String
  volunteer : String
  education_entries : List EducationEntry
  experience_entries : List ExperienceEntry
  spelling_errors : List (String × String × List String)
deriving DecidableEq

/-- The all-empty education placeholder (Ai_resume.py lines 38-44). -/
def defaultEducationEntry : EducationEntry :=
  { degree := "", school := "", year := "", achievements := "", gpa := "" }

/-- The all-empty experience placeholder (Ai_resume.py lines 47-55). -/
def defaultExperienceEntry : ExperienceEntry :=
  { role := "", company := "", years := "", months := 0, description := "",
    achievements := "", location := "" }

/-- The session state at session start: all fields empty, one placeholder
entry in each of the education and experience lists, no cached corrections. -/
def initState : SessionState :=
  { name := "", email := "", phone := "", linkedin := "", github := "",
    portfolio := "", address := "", summary := "", technical_skills := "",
    soft_skills := "", projects := "", certifications := "", languages := "",
    publications := "", volunteer := "",
    education_entries := [defaultEducationEntry],
    experience_entries := [defaultExperienceEntry],
    spelling_errors := [] }

/-- Replace the description of the experience entry at a given index,
modelling `st.session_state.experience_entries[idx]["description"] =
corrected` (Ai_resume.py line 448; the panel only ever produces in-range
indices, so the out-of-range case never occurs). -/
def setDescription (es : List ExperienceEntry) (i : Nat) (d : String) :
    List ExperienceEntry :=
  es.mapIdx fun j e => if j = i then { e with description := d } else e

/-- The body of the apply-corrections button handler (Ai_resume.py lines
442-448): dispatch on the field key and overwrite the matching source field
with the corrected text. Nothing else in the state is touched. -/
def applyCorrections (s : SessionState) (field corrected : String) : SessionState :=
  if field = "summary" then { s with summary := corrected }
  else if field = "skills" then { s with technical_skills := corrected }
  else if field.startsWith "exp_desc" then
    let idx := ((field.splitOn "_").getLastD "").toNat?.getD 0
    { s with experience_entries := setDescription s.experience_entries idx corrected }
  else s

/-- One click of "Apply corrections to field" (Ai_resume.py lines 441-450):
look up the cached correction for the field and apply it. -/
def applyCorrectionsClick (s : SessionState) (field : String) : SessionState :=
  match s.spelling_errors.lookup field with
  | some (corrected, _) => applyCorrections s field corrected
  | none => s

/-- The user actions of the interactive form controller that mutate the
session state (Ai_resume.py): field edits, entry append and guarded removal
for each section, in-place entry edits, running the spell check (which stores
its result map), and applying a cached correction. -/
inductive ControllerAction where
  | addEducation
  | removeEducation
  | addExperience
  | removeExperience
  | editEducation (i : Nat) (e : EducationEntry)
  | editExperience (i : Nat) (e : ExperienceEntry)
  | setSummary (v : String)
  | setTechnicalSkills (v : String)
  | setSpellingErrors (m : List (String × String × List String))
  | applyCorrectionsAct (field : String)

/-- One step of the controller. Add buttons append a default-valued entry
(Ai_resume.py lines 312-319 and 378-387); remove buttons pop the last entry
and are only offered when more than one entry remains (lines 321-322 and
389-390). -/
def step (s : SessionState) : ControllerAction → SessionState
  | .addEducation =>
      { s with education_entries := s.education_entries ++ [defaultEducationEntry] }
  | .removeEducation =>
      if 1 < s.education_entries.length then
        { s with education_entries := s.education_entries.dropLast }
      else s
  | .addExperience =>
      { s with experience_entries := s.experience_entries ++ [defaultExperienceEntry] }
  | .removeExperience =>
      if 1 < s.experience_entries.length then
        { s with experience_entries := s.experience_entries.dropLast }
      else s
  | .editEducation i e =>
      { s with education_entries := s.education_entries.set i e }
  | .editExperience i e =>
      { s with experience_entries := s.experience_entries.set i e }
  | .setSummary v => { s with summary := v }
  | .setTechnicalSkills v => { s with technical_skills := v }
  | .setSpellingErrors m => { s with spelling_errors := m }
  | .applyCorrectionsAct field => applyCorrectionsClick s field

/-- Outcome of clicking "Generate Professional Resume": either the single
combined validation message, or the rendered op stream offered for download. -/
inductive RenderOutcome where
  | validationError (msg : String)
  | rendered (ops : List RenderOp)
deriving DecidableEq

/-- The combined validation message (Ai_resume.py line 455). -/
def requiredFieldsMsg : String :=
  "Please fill in at least the required fields (marked with *)"

/-- The resume data dict assembled from the session state
(Ai_resume.py lines 458-475). -/
def resumeDataOf (s : SessionState) : ResumeData :=
  { name := s.name,
    contact := s.email ++ " | " ++ s.phone ++ " | " ++ s.address,
    summary := s.summary,
    education := s.education_entries,
    experience := s.experience_entries,
    skills := { technical := s.technical_skills, soft := s.soft_skills },
    additional := { projects := s.projects, certifications := s.certifications,
                    languages := s.languages, publications := s.publications,
                    volunteer := s.volunteer } }

/-- The generate-resume button handler (Ai_resume.py lines 453-479), with the
renderer passed as a parameter: an empty name, email or summary is falsy, so
validation fails with the single combined message before the renderer is
invoked; otherwise the assembled record is rendered. -/
def generateResumeClickWith (render : ResumeData → List RenderOp)
    (s : SessionState) : RenderOutcome :=
  if s.name = "" ∨ s.email = "" ∨ s.summary = "" then
    .validationError requiredFieldsMsg
  else
    .rendered (render (resumeDataOf s))

/-- The generate-resume button handler with the actual renderer plugged in. -/
def generateResumeClick (PDF_FONT : String) (PDF_FONT_SIZE : Nat)
    (s : SessionState) : RenderOutcome :=
  generateResumeClickWith (fun d => (create_pdf PDF_FONT PDF_FONT_SIZE d).ops) s

/-- Intermediate form of the misspelled-word comprehension: walk the original
tokens carrying the running index, comparing against the corrected tokens. -/
def diffFrom (corrWords : List String) : Nat → List String → List String
  | _, [] => []
  | n, o :: os =>
      (if decide (n < corrWords.length) && (o != corrWords.getD n "") then [o] else []) ++
      diffFrom corrWords (n + 1) os

/-- Whether the op stream contains a bold single-line cell with given text,
the shape of a section heading. -/
def hasBoldCell (ops : List RenderOp) (t : String) : Bool :=
  ops.any fun op =>
    match op with
    | RenderOp.cell _ b _ s => b && (s == t)
    | _ => false

/-- A concrete session state with a cached spelling correction for the
summary field. -/
def s3 : SessionState :=
  { initState with
    name := "Jane Doe", email := "j@x.com", summary := "helo",
    spelling_errors := [("summary", "hello", ["helo"])] }

/-- A concrete resume record with nonempty skills and additional content. -/
def d4 : ResumeData :=
  { name := "Jane Doe", contact := "j@x.com |  | ", summary := "Engineer.",
    education := [defaultEducationEntry],
    experience := [defaultExperienceEntry],
    skills := { technical := "Python", soft := "Teamwork" },
    additional := { projects := "A project", certifications := "", languages := "",
                    publications := "", volunteer := "" } }

/-- Both entry sequences hold at least one entry. -/
def entriesNonempty (s : SessionState) : Prop :=
  1 ≤ s.education_entries.length ∧ 1 ≤ s.experience_entries.length

/-- A concrete parameters record used to instantiate witnesses. -/
def rp0 : RequestParams :=
  { max_new_tokens := 500, temperature := 1, do_sample := true, top_p := 9/10,
    return_full_text := false }

/-! Theorems. Each claim of the specification is settled by one theorem below,
with witnesses instantiating the hypothetical ones and counterexamples for the
claims the code refutes. -/

/-- Claim C1, counterexample: with ceiling 500 a caller-requested max_length
of 0 is falsy in Python, so the request service sends the full ceiling 500
upstream, not min 0 500 = 0 as the claimed formula states. -/
theorem effectiveMaxNewTokens_ne_spec_at_zero :
    effectiveMaxNewTokens 500 (some 0) = 500 ∧
    specEffectiveMaxLength 500 500 (some 0) = 0 ∧
    effectiveMaxNewTokens 500 (some 0) ≠ specEffectiveMaxLength 500 500 (some 0) := by
  refine ⟨?_, ?_, ?_⟩ <;> decide

/-- Claim C1 (amended): the effective max-length sent upstream is the minimum
of the requested value and the ceiling, where a requested 0 — like an absent
request — falls back to the service default (the ceiling itself in the request
service); in particular it never exceeds the ceiling, and requesting 10000
with ceiling 500 sends 500. The interactive generator also never exceeds the
ceiling. -/
theorem effectiveMaxNewTokens_spec :
    (∀ (MAX : Int) (req : Option Int), effectiveMaxNewTokens MAX req ≤ MAX) ∧
    (∀ (MAX : Int) (DT : Option Rat) (ml : Option Int) (t : Option Rat)
        (p : RequestParams), requestParams MAX DT ml t = Except.ok p →
          p.max_new_tokens = effectiveMaxNewTokens MAX ml) ∧
    (∀ (MAX v : Int), v ≠ 0 →
        effectiveMaxNewTokens MAX (some v) = specEffectiveMaxLength MAX MAX (some v)) ∧
    (∀ MAX : Int, effectiveMaxNewTokens MAX none = specEffectiveMaxLength MAX MAX none) ∧
    (∀ MAX ml : Int, uiMaxNewTokens MAX ml ≤ MAX) ∧
    effectiveMaxNewTokens 500 (some 10000) = 500 := by
  refine ⟨fun MAX req => min_le_right _ _, ?_, ?_, fun MAX => rfl,
    fun MAX ml => min_le_right _ _, by decide⟩
  · intro MAX DT ml t p h
    unfold requestParams at h
    cases he : effTemperature DT t with
    | error m => rw [he] at h; exact absurd h (by simp)
    | ok tv =>
        rw [he] at h
        simp only at h
        injection h with h'
        rw [← h']
  · intro MAX v hv
    simp [effectiveMaxNewTokens, pyOrInt, specEffectiveMaxLength, hv]

/-- Witness for the amended claim C1 at concrete inputs. -/
theorem effectiveMaxNewTokens_spec_witness :
    ((10000 : Int) ≠ 0 ∧
      effectiveMaxNewTokens 500 (some 10000) = specEffectiveMaxLength 500 500 (some 10000)) ∧
    (requestParams 500 (some 1) (some 10000) (some 1) = Except.ok rp0 ∧
      rp0.max_new_tokens = effectiveMaxNewTokens 500 (some 10000)) :=
  ⟨⟨by decide, effectiveMaxNewTokens_spec.2.2.1 500 10000 (by decide)⟩,
   ⟨by rfl,
    effectiveMaxNewTokens_spec.2.1 500 (some 1) (some 10000) (some 1) rp0 (by rfl)⟩⟩

/-- Claim C10: at the public generation interface a requested max_length of 0
and a requested temperature of 0.0 are each falsy, hence treated as absent:
max_length 0 sends the full configured ceiling upstream, temperature 0.0 uses
the configured default, and the whole parameters dict coincides with the one
for an absent request. -/
theorem zero_params_treated_as_absent :
    (∀ MAX : Int, effectiveMaxNewTokens MAX (some 0) = MAX) ∧
    (∀ DT : Option Rat, effTemperature DT (some 0) = effTemperature DT none) ∧
    (∀ d : Rat, effTemperature (some d) (some 0) = Except.ok d) ∧
    (∀ (MAX : Int) (DT : Option Rat),
        requestParams MAX DT (some 0) (some 0) = requestParams MAX DT none none) := by
  refine ⟨fun MAX => ?_, fun DT => ?_, fun d => ?_, fun MAX DT => ?_⟩
  · simp [effectiveMaxNewTokens, pyOrInt, min_self]
  · simp [effTemperature]
  · simp [effTemperature, defaultOrRaise]
  · simp [requestParams, effTemperature, effectiveMaxNewTokens, pyOrInt, min_self]

/-- Claim C9, counterexample: the request service reads MODEL_NAME and
DEFAULT_TEMPERATURE without defaults, refuting that every configuration key
except the credential has a default value. -/
theorem config_defaults_counterexample :
    ¬ (∀ r ∈ servicesConfigReads,
        r.key ≠ "HF_API_KEY" → (r.default).isSome = true) := by
  decide

/-- Claim C9 (amended): every configuration key the request service reads
except the credential, the model name and the default temperature has a
default; with only the credential configured, a generation request that does
not specify a temperature fails with a 500 error from float(None) on the
missing DEFAULT_TEMPERATURE, before and regardless of any upstream call;
other features do not read the failing keys. -/
theorem config_defaults_amended :
    (∀ r ∈ servicesConfigReads,
        r.key ≠ "HF_API_KEY" → r.key ≠ "MODEL_NAME" → r.key ≠ "DEFAULT_TEMPERATURE" →
          (r.default).isSome = true) ∧
    (∀ (prompt : String) (ml : Option Int)
        (upstream : RequestParams → UpstreamOutcome) (MAX : Int),
        generate_text (some "key") MAX none prompt ml none upstream =
          Except.error ⟨500, floatNoneMsg⟩) := by
  constructor
  · decide
  · intro prompt ml upstream MAX
    rfl

/-- Witness for the amended claim C9 at concrete inputs. -/
theorem config_defaults_amended_witness :
    ((⟨"API_TIMEOUT", some "30"⟩ : ConfigRead) ∈ servicesConfigReads ∧
      ((⟨"API_TIMEOUT", some "30"⟩ : ConfigRead).default).isSome = true) ∧
    generate_text (some "key") 500 none "p" none none
        (fun _ => UpstreamOutcome.transportError "x") =
      Except.error ⟨500, floatNoneMsg⟩ :=
  ⟨⟨by decide,
    config_defaults_amended.1 ⟨"API_TIMEOUT", some "30"⟩ (by decide) (by decide)
      (by decide) (by decide)⟩,
   config_defaults_amended.2 "p" none (fun _ => UpstreamOutcome.transportError "x") 500⟩

/-- Claim C2: the upstream 503 response never reaches the caller as a 503.
The try block raises HTTPException(503, "Model loading, please wait N
seconds"), but the blanket except Exception clause of generate_text catches it
and re-raises it as status 500 whose detail is the str of the caught
exception. Evaluated at the claim's failing input (upstream 503 with
estimated_time 20) the caller receives 500, and the result does not depend on
any further upstream outcomes (no automatic retry). -/
theorem generate_text_503_wrapped_as_500 :
    generate_textCalls (some "key") 500 (some 1) "prompt" none (some 1)
        [UpstreamOutcome.response ⟨503, some 20, HFBody.completions none⟩] =
      Except.error ⟨500, "503: Model loading, please wait 20 seconds"⟩ ∧
    (∀ rest : List UpstreamOutcome,
        generate_textCalls (some "key") 500 (some 1) "prompt" none (some 1)
            (UpstreamOutcome.response ⟨503, some 20, HFBody.completions none⟩ :: rest) =
          Except.error ⟨500, "503: Model loading, please wait 20 seconds"⟩) := by
  exact ⟨by rfl, fun rest => by rfl⟩

/-- Claim C6: empty or whitespace-only input is returned unchanged with an
empty misspelled-word list, and this holds for every external capability, so
the capability is never consulted on this path. -/
theorem check_spelling_whitespace_noop :
    ∀ (cap : SpellCapability) (text : String),
      stripIsEmpty text = true → check_spelling cap text = (text, []) := by
  intro cap text h
  simp [check_spelling, h]

/-- Witness for claim C6 at a concrete whitespace input and capability. -/
theorem check_spelling_whitespace_noop_witness :
    stripIsEmpty "  " = true ∧ check_spelling capDemo "  " = ("  ", []) :=
  ⟨by decide, check_spelling_whitespace_noop capDemo "  " (by decide)⟩

/-- The spec walk produces nothing when the corrected tokenization is empty. -/
theorem specMisspelled_nil_right (os : List String) : specMisspelled os [] = [] := by
  cases os <;> rfl

/-- The filtered enumeration of the comprehension equals the indexed walk. -/
theorem diffFrom_map_filter (corr : List String) (os : List String) :
    ∀ n : Nat,
      ((List.enumFrom n os).filter fun p =>
          decide (p.1 < corr.length) && (p.2 != corr.getD p.1 "")).map Prod.snd =
        diffFrom corr n os := by
  induction os with
  | nil => intro n; rfl
  | cons o os ih =>
      intro n
      have hcons : List.enumFrom n (o :: os) = (n, o) :: List.enumFrom (n + 1) os := rfl
      rw [hcons]
      by_cases hpa : (decide (n < corr.length) && (o != corr.getD n "")) = true
      · rw [@List.filter_cons_of_pos (Nat × String)
            (fun p => decide (p.1 < corr.length) && (p.2 != corr.getD p.1 ""))
            (n, o) (List.enumFrom (n + 1) os) hpa,
          List.map_cons, ih (n + 1)]
        show o :: diffFrom corr (n + 1) os = diffFrom corr n (o :: os)
        simp only [diffFrom]
        rw [if_pos hpa]
        rfl
      · rw [@List.filter_cons_of_neg (Nat × String)
            (fun p => decide (p.1 < corr.length) && (p.2 != corr.getD p.1 ""))
            (n, o) (List.enumFrom (n + 1) os) hpa,
          ih (n + 1)]
        show diffFrom corr (n + 1) os = diffFrom corr n (o :: os)
        simp only [diffFrom]
        rw [if_neg hpa]
        rfl

/-- The comprehension of check_spelling equals the indexed walk from zero. -/
theorem misspelledWords_eq_diffFrom (os corr : List String) :
    misspelledWords os corr = diffFrom corr 0 os :=
  diffFrom_map_filter corr os 0

/-- The indexed walk from position n equals the spec walk against the
corrected tokenization with its first n tokens dropped. -/
theorem diffFrom_eq_specMisspelled (corr : List String) (os : List String) :
    ∀ n : Nat, diffFrom corr n os = specMisspelled os (corr.drop n) := by
  induction os with
  | nil =>
      intro n
      cases corr.drop n <;> rfl
  | cons o os ih =>
      intro n
      by_cases h : n < corr.length
      · have hd : corr.drop n = corr[n] :: corr.drop (n + 1) :=
          List.drop_eq_getElem_cons h
        have hget : corr.getD n "" = corr[n] := by
          simp [List.getElem?_eq_getElem h]
        rw [hd]
        show (if decide (n < corr.length) && (o != corr.getD n "") then [o] else []) ++
            diffFrom corr (n + 1) os =
          (if o ≠ corr[n] then [o] else []) ++ specMisspelled os (corr.drop (n + 1))
        rw [ih (n + 1), hget]
        by_cases he : o = corr[n] <;> simp [he, h]
      · have hlen : corr.length ≤ n := Nat.le_of_not_lt h
        have hd : corr.drop n = [] := List.drop_eq_nil_of_le hlen
        have hd1 : corr.drop (n + 1) = [] := List.drop_eq_nil_of_le (by omega)
        rw [hd]
        show (if decide (n < corr.length) && (o != corr.getD n "") then [o] else []) ++
            diffFrom corr (n + 1) os = specMisspelled (o :: os) []
        rw [ih (n + 1), hd1, specMisspelled_nil_right, specMisspelled_nil_right]
        simp [h]

/-- Claim C5: the misspelled-word list is the positional comparison of the
original tokenization against the corrected tokenization — for each position
present in both, the original token is reported when the two differ, and
positions beyond the shorter tokenization are ignored; correspondingly,
check_spelling on non-whitespace input returns the corrected text together
with exactly that comparison. -/
theorem check_spelling_positional_diff :
    (∀ origWords corrWords : List String,
        misspelledWords origWords corrWords = specMisspelled origWords corrWords) ∧
    (∀ (cap : SpellCapability) (text : String), stripIsEmpty text = false →
        check_spelling cap text =
          (cap.correct text,
            specMisspelled (cap.words text) (cap.words (cap.correct text)))) := by
  have key : ∀ os corr : List String, misspelledWords os corr = specMisspelled os corr := by
    intro os corr
    rw [misspelledWords_eq_diffFrom, diffFrom_eq_specMisspelled, List.drop_zero]
  refine ⟨key, fun cap text h => ?_⟩
  simp [check_spelling, h, key]

/-- Witness for claim C5 at a concrete input and capability. -/
theorem check_spelling_positional_diff_witness :
    stripIsEmpty "helo world" = false ∧
    check_spelling capDemo "helo world" =
      ("hello world",
        specMisspelled (capDemo.words "helo world") (capDemo.words "hello world")) :=
  ⟨by decide, check_spelling_positional_diff.2 capDemo "helo world" (by decide)⟩

/-- Claim C3, counterexample: at a concrete state holding a cached correction
for the summary, clicking apply overwrites the summary but a cached result for
that field still remains, refuting the claimed cache invalidation. -/
theorem apply_correction_cache_not_cleared :
    ¬ ((applyCorrectionsClick s3 "summary").summary = "hello" ∧
        List.lookup "summary" (applyCorrectionsClick s3 "summary").spelling_errors =
          none) := by
  decide

/-- Claim C3 (amended): applying a cached correction overwrites the source
field with the corrected text but does not clear the cached correction result:
the spelling_errors cache is left entirely unchanged by the action. -/
theorem apply_correction_overwrites_keeps_cache :
    (∀ (s : SessionState) (field : String),
        (applyCorrectionsClick s field).spelling_errors = s.spelling_errors) ∧
    (∀ (s : SessionState) (c : String) (e : List String),
        List.lookup "summary" s.spelling_errors = some (c, e) →
          (applyCorrectionsClick s "summary").summary = c) ∧
    (∀ (s : SessionState) (c : String) (e : List String),
        List.lookup "skills" s.spelling_errors = some (c, e) →
          (applyCorrectionsClick s "skills").technical_skills = c) := by
  refine ⟨?_, ?_, ?_⟩
  · intro s field
    unfold applyCorrectionsClick
    cases s.spelling_errors.lookup field with
    | none => rfl
    | some ce =>
        obtain ⟨c, e⟩ := ce
        unfold applyCorrections
        split_ifs <;> rfl
  · intro s c e h
    unfold applyCorrectionsClick
    rw [h]
    simp [applyCorrections]
  · intro s c e h
    unfold applyCorrectionsClick
    rw [h]
    simp [applyCorrections]

/-- Witness for the amended claim C3 at a concrete state. -/
theorem apply_correction_overwrites_keeps_cache_witness :
    List.lookup "summary" s3.spelling_errors = some ("hello", ["helo"]) ∧
    (applyCorrectionsClick s3 "summary").summary = "hello" :=
  ⟨by decide,
    apply_correction_overwrites_keeps_cache.2.1 s3 "hello" ["helo"] (by decide)⟩

/-- Applying a correction never touches the education entries and preserves
the number of experience entries. -/
theorem applyCorrections_entries (s : SessionState) (field corrected : String) :
    (applyCorrections s field corrected).education_entries = s.education_entries ∧
    (applyCorrections s field corrected).experience_entries.length =
      s.experience_entries.length := by
  unfold applyCorrections
  split_ifs <;> simp [setDescription]

/-- The apply-corrections click never touches the education entries and
preserves the number of experience entries. -/
theorem applyCorrectionsClick_entries (s : SessionState) (field : String) :
    (applyCorrectionsClick s field).education_entries = s.education_entries ∧
    (applyCorrectionsClick s field).experience_entries.length =
      s.experience_entries.length := by
  unfold applyCorrectionsClick
  cases s.spelling_errors.lookup field with
  | none => exact ⟨rfl, rfl⟩
  | some ce =>
      obtain ⟨c, e⟩ := ce
      exact applyCorrections_entries s field c

/-- Every controller action keeps both entry sequences nonempty. -/
theorem step_preserves_entriesNonempty (s : SessionState) (a : ControllerAction)
    (h : entriesNonempty s) : entriesNonempty (step s a) := by
  obtain ⟨h1, h2⟩ := h
  cases a with
  | addEducation =>
      refine ⟨?_, h2⟩
      simp [step]
  | removeEducation =>
      simp only [step]
      split
      · rename_i hlt
        refine ⟨?_, h2⟩
        simp only [List.length_dropLast]
        omega
      · exact ⟨h1, h2⟩
  | addExperience =>
      refine ⟨h1, ?_⟩
      simp [step]
  | removeExperience =>
      simp only [step]
      split
      · rename_i hlt
        refine ⟨h1, ?_⟩
        simp only [List.length_dropLast]
        omega
      · exact ⟨h1, h2⟩
  | editEducation i e =>
      refine ⟨?_, h2⟩
      simpa [step] using h1
  | editExperience i e =>
      refine ⟨h1, ?_⟩
      simpa [step] using h2
  | setSummary v => exact ⟨h1, h2⟩
  | setTechnicalSkills v => exact ⟨h1, h2⟩
  | setSpellingErrors m => exact ⟨h1, h2⟩
  | applyCorrectionsAct field =>
      refine ⟨?_, ?_⟩
      · rw [show step s (ControllerAction.applyCorrectionsAct field) =
            applyCorrectionsClick s field from rfl,
          (applyCorrectionsClick_entries s field).1]
        exact h1
      · rw [show step s (ControllerAction.applyCorrectionsAct field) =
            applyCorrectionsClick s field from rfl,
          (applyCorrectionsClick_entries s field).2]
        exact h2

/-- Any sequence of controller actions keeps both entry sequences nonempty. -/
theorem foldl_step_entriesNonempty (acts : List ControllerAction) :
    ∀ s : SessionState, entriesNonempty s → entriesNonempty (acts.foldl step s) := by
  induction acts with
  | nil => intro s h; exact h
  | cons a as ih =>
      intro s h
      exact ih (step s a) (step_preserves_entriesNonempty s a h)

/-- Claim C7: every reachable session state keeps at least one education and
one experience entry; the remove action is a no-op when exactly one entry
remains; and on a nonempty sequence, appending a default entry and then
removing the last one restores the state exactly, order included. -/
theorem entry_sequences_invariant :
    (∀ acts : List ControllerAction,
        1 ≤ (acts.foldl step initState).education_entries.length ∧
        1 ≤ (acts.foldl step initState).experience_entries.length) ∧
    (∀ s : SessionState, s.education_entries.length = 1 →
        step s ControllerAction.removeEducation = s) ∧
    (∀ s : SessionState, s.experience_entries.length = 1 →
        step s ControllerAction.removeExperience = s) ∧
    (∀ s : SessionState, 1 ≤ s.education_entries.length →
        step (step s ControllerAction.addEducation)
          ControllerAction.removeEducation = s) ∧
    (∀ s : SessionState, 1 ≤ s.experience_entries.length →
        step (step s ControllerAction.addExperience)
          ControllerAction.removeExperience = s) := by
  refine ⟨?_, ?_, ?_, ?_, ?_⟩
  · intro acts
    exact foldl_step_entriesNonempty acts initState ⟨by decide, by decide⟩
  · intro s h
    simp [step, h]
  · intro s h
    simp [step, h]
  · intro s h
    have hne : s.education_entries ≠ [] := by
      intro hnil
      rw [hnil] at h
      exact absurd h (by decide)
    simp [step, List.dropLast_concat]
    exact hne
  · intro s h
    have hne : s.experience_entries ≠ [] := by
      intro hnil
      rw [hnil] at h
      exact absurd h (by decide)
    simp [step, List.dropLast_concat]
    exact hne

/-- Witness for claim C7 at concrete states. -/
theorem entry_sequences_invariant_witness :
    (initState.education_entries.length = 1 ∧
      step initState ControllerAction.removeEducation = initState) ∧
    (initState.experience_entries.length = 1 ∧
      step initState ControllerAction.removeExperience = initState) ∧
    (1 ≤ initState.education_entries.length ∧
      step (step initState ControllerAction.addEducation)
        ControllerAction.removeEducation = initState) ∧
    (1 ≤ initState.experience_entries.length ∧
      step (step initState ControllerAction.addExperience)
        ControllerAction.removeExperience = initState) :=
  ⟨⟨by decide, entry_sequences_invariant.2.1 initState (by decide)⟩,
   ⟨by decide, entry_sequences_invariant.2.2.1 initState (by decide)⟩,
   ⟨by decide, entry_sequences_invariant.2.2.2.1 initState (by decide)⟩,
   ⟨by decide, entry_sequences_invariant.2.2.2.2 initState (by decide)⟩⟩

/-- Claim C8: when name, email or summary is empty the click yields the single
combined validation message and the result does not depend on the renderer at
all (so neither the renderer nor any external call is made); when all three
are nonempty the renderer is invoked on the assembled record. -/
theorem generate_resume_validation :
    (∀ (s : SessionState) (render₁ render₂ : ResumeData → List RenderOp),
        (s.name = "" ∨ s.email = "" ∨ s.summary = "") →
          generateResumeClickWith render₁ s =
              RenderOutcome.validationError requiredFieldsMsg ∧
            generateResumeClickWith render₁ s = generateResumeClickWith render₂ s) ∧
    (∀ (s : SessionState) (render : ResumeData → List RenderOp),
        s.name ≠ "" → s.email ≠ "" → s.summary ≠ "" →
          generateResumeClickWith render s =
            RenderOutcome.rendered (render (resumeDataOf s))) := by
  constructor
  · intro s r₁ r₂ h
    constructor <;> simp [generateResumeClickWith, h]
  · intro s render h1 h2 h3
    simp [generateResumeClickWith, h1, h2, h3]

/-- Witness for claim C8 at concrete states. -/
theorem generate_resume_validation_witness :
    ((initState.name = "" ∨ initState.email = "" ∨ initState.summary = "") ∧
      generateResumeClickWith (fun _ => []) initState =
        RenderOutcome.validationError requiredFieldsMsg) ∧
    (s3.name ≠ "" ∧ s3.email ≠ "" ∧ s3.summary ≠ "" ∧
      generateResumeClickWith (fun _ => []) s3 = RenderOutcome.rendered []) :=
  ⟨⟨Or.inl rfl,
    (generate_resume_validation.1 initState (fun _ => []) (fun _ => [])
      (Or.inl rfl)).1⟩,
   ⟨by decide, by decide, by decide,
    generate_resume_validation.2 s3 (fun _ => []) (by decide) (by decide) (by decide)⟩⟩

/-- Rendering one education entry appends exactly its op list. -/
theorem renderEduEntry_eq (p : FPDF) (e : EducationEntry) :
    renderEduEntry p e = { p with ops := p.ops ++ eduEntryOps p.size p.bold e } := by
  unfold renderEduEntry eduEntryOps FPDF.multi_cell FPDF.ln
  by_cases h : e.achievements = "" <;> simp [h, List.append_assoc]

/-- Rendering one experience entry appends exactly its op list. -/
theorem renderExpEntry_eq (p : FPDF) (e : ExperienceEntry) :
    renderExpEntry p e = { p with ops := p.ops ++ expEntryOps p.size p.bold e } := by
  unfold renderExpEntry expEntryOps FPDF.multi_cell FPDF.ln
  by_cases h1 : e.description = "" <;> by_cases h2 : e.achievements = "" <;>
    simp [h1, h2, List.append_assoc]

/-- Folding the education loop appends the concatenated entry op lists. -/
theorem foldl_renderEduEntry (es : List EducationEntry) :
    ∀ p : FPDF, es.foldl renderEduEntry p =
      { p with ops := p.ops ++ opsConcat (eduEntryOps p.size p.bold) es } := by
  induction es with
  | nil => intro p; simp [opsConcat]
  | cons e es ih =>
      intro p
      rw [List.foldl_cons, renderEduEntry_eq, ih]
      simp [opsConcat, List.append_assoc]

/-- Folding the experience loop appends the concatenated entry op lists. -/
theorem foldl_renderExpEntry (es : List ExperienceEntry) :
    ∀ p : FPDF, es.foldl renderExpEntry p =
      { p with ops := p.ops ++ opsConcat (expEntryOps p.size p.bold) es } := by
  induction es with
  | nil => intro p; simp [opsConcat]
  | cons e es ih =>
      intro p
      rw [List.foldl_cons, renderExpEntry_eq, ih]
      simp [opsConcat, List.append_assoc]

/-- Python capitalizes the education section name this way. -/
theorem pyCapitalize_education : pyCapitalize "education" = "Education" := rfl

/-- Python capitalizes the experience section name this way. -/
theorem pyCapitalize_experience : pyCapitalize "experience" = "Experience" := rfl

/-- Claim C4 (amended): for every resume record the rendered op stream is
exactly the fixed template — centered name at size 24, centered contact line,
a bold Professional Summary heading followed by the summary as body text, then
an Education block and an Experience block each introduced by a bold
capitalized heading. No skills block and no additional block is emitted. -/
theorem create_pdf_template (PDF_FONT : String) (PDF_FONT_SIZE : Nat)
    (d : ResumeData) :
    (create_pdf PDF_FONT PDF_FONT_SIZE d).ops =
      [RenderOp.cell 24 false true d.name,
       RenderOp.cell 12 false true d.contact,
       RenderOp.lineBreak 10,
       RenderOp.cell 12 true false "Professional Summary",
       RenderOp.multiCell 12 false d.summary,
       RenderOp.lineBreak 10,
       RenderOp.cell 12 true false "Education"] ++
      opsConcat (eduEntryOps 12 false) d.education ++
      ([RenderOp.cell 12 true false "Experience"] ++
        opsConcat (expEntryOps 12 false) d.experience) := by
  simp only [create_pdf, FPDF.set_font, FPDF.cell, FPDF.multi_cell, FPDF.ln,
    foldl_renderEduEntry, foldl_renderExpEntry, pyCapitalize_education,
    pyCapitalize_experience]
  simp [List.append_assoc]

/-- Claim C4, counterexample: at a concrete record with nonempty skills and
additional content, the rendered op stream contains a bold Education heading
but no bold Skills or Additional heading, refuting the claimed skills and
additional blocks of the template. -/
theorem create_pdf_no_skills_block :
    hasBoldCell (create_pdf "Arial" 12 d4).ops "Skills" = false ∧
    hasBoldCell (create_pdf "Arial" 12 d4).ops "Additional" = false ∧
    hasBoldCell (create_pdf "Arial" 12 d4).ops "Education" = true ∧
    hasBoldCell (create_pdf "Arial" 12 d4).ops "Experience" = true := by
  refine ⟨?_, ?_, ?_, ?_⟩ <;> rfl

end AIResumeBuilder
